import Mathlib

/-!
Verification development for the fab-process-generator repository.

The JavaScript sources `src/process_planner.js` and `src/gds_parser.js` are
shallowly embedded below.  JS numbers are modelled as rationals (`ℚ`), except
in the layout-analysis metrics where `Math.sqrt` forces real numbers (`ℝ`).
Optional JS object attributes are modelled as `Option` fields; JS truthiness
tests on them (`if (step.layer)`, `x || d`, …) are modelled explicitly:
a `string` is truthy when present and non-empty, a number when present and
non-zero.  The recipe table, loaded once from `recipe_db.json` at module
initialisation, is passed as an explicit association list.
-/

namespace FabGen

/-- JS `x || d` for an optional string: `undefined` and `""` are falsy. -/
def jsOrStr (o : Option String) (d : String) : String :=
  match o with
  | some s => if s = "" then d else s
  | none => d

/-- JS `x || d` for an optional number: `undefined` and `0` are falsy. -/
def jsOrNum (o : Option ℚ) (d : ℚ) : ℚ :=
  match o with
  | some v => if v = 0 then d else v
  | none => d

/-- JS truthiness of an optional string field. -/
def strTruthy (o : Option String) : Bool :=
  match o with
  | some s => s ≠ ""
  | none => false

/-- JS truthiness of an optional numeric field. -/
def numTruthy (o : Option ℚ) : Bool :=
  match o with
  | some v => v ≠ 0
  | none => false

/-- JS `Math.round`: round to nearest integer, halves toward `+∞`. -/
def jsRound (q : ℚ) : ℤ := ⌊q + 1/2⌋

/-- JS `Math.round` on reals, for the layout-analysis metrics. -/
noncomputable def jsRoundR (x : ℝ) : ℤ := ⌊x + 1/2⌋

/-- JS `String.prototype.includes`: contiguous-substring test. -/
def jsIncludes (s pat : String) : Bool :=
  s.toList.tails.any (fun t => pat.toList.isPrefixOf t)

/-- JS `String.prototype.toUpperCase` (ASCII), as a structural character
map. -/
def jsToUpper (s : String) : String :=
  String.mk (s.data.map Char.toUpper)

/-- One layer record of a `Layout`, as produced by `gds_parser.js`. -/
structure Layer where
  number : ℕ
  name : String
  datatype : ℕ := 0
  feature_count : ℕ
deriving Repr, DecidableEq

/-- Database/user units of a layout (`units` field of the mock layout). -/
structure Units where
  database_unit : ℚ
  user_unit : ℚ
deriving Repr, DecidableEq

/-- Bounding box of a layout. -/
structure BoundingBox where
  min_x : ℚ
  min_y : ℚ
  max_x : ℚ
  max_y : ℚ
deriving Repr, DecidableEq

/-- A layout value, as supplied by the layout provider (`gds_parser.js`). -/
structure Layout where
  filename : String
  layers : List Layer
  feature_count : ℕ
  units : Units
  bounding_box : BoundingBox
deriving Repr, DecidableEq

/-- One step template of a recipe (an entry of `recipe_db.json`);
optional attributes are `Option` fields. -/
structure StepTemplate where
  step : ℕ
  operation : String
  description : String
  layer : Option String := none
  material : Option String := none
  method : Option String := none
  thickness_nm : Option ℚ := none
  temperature_c : Option ℚ := none
  duration_min : Option ℚ := none
deriving Repr, DecidableEq

/-- A recipe of the recipe database. -/
structure Recipe where
  name : String
  technology_node : Option String := none
  application : Option String := none
  steps : List StepTemplate
deriving Repr, DecidableEq

/-- The loaded recipe table: process-type identifier keyed lookup
(`recipes[processType]` in `process_planner.js`). -/
def RecipeDB := List (String × Recipe)

/-- Key lookup in the recipe table. -/
def lookupRecipe (db : RecipeDB) (processType : String) : Option Recipe :=
  (db.find? (fun p => p.1 = processType)).map (fun p => p.2)

/-- Status attached to a mapped step by `mapLayersToSteps`. -/
inductive StepStatus where
  | matched
  | layer_missing
  | layer_independent
deriving Repr, DecidableEq

/-- A step template extended with mapping results (`{ ...step }` plus the
fields written by `mapLayersToSteps`).  The spread copy of the template is
the `template` component. -/
structure MappedStep where
  template : StepTemplate
  status : StepStatus
  layout_layer : Option ℕ := none
  feature_count : Option ℕ := none
  warning : Option String := none
deriving Repr, DecidableEq

/-- The layer-name index built by `mapLayersToSteps`
(`layerMap[layer.name] = layer`): object-key writes in sequence order,
so a later layer with the same name overwrites an earlier one. -/
def layerIndex (layers : List Layer) : String → Option Layer :=
  layers.foldl (fun m l => fun n => if n = l.name then some l else m n)
    (fun _ => none)

/-- Mapping of one recipe step against the layer index: the body of the
`recipe.steps.forEach` loop in `mapLayersToSteps`.  `step.layer` is tested
for JS truthiness, then looked up in the index. -/
def mapStep (index : String → Option Layer) (t : StepTemplate) : MappedStep :=
  match t.layer with
  | some s =>
    if s = "" then
      { template := t, status := .layer_independent }
    else
      match index s with
      | some l =>
        { template := t, status := .matched,
          layout_layer := some l.number,
          feature_count := some l.feature_count }
      | none =>
        { template := t, status := .layer_missing,
          warning := some ("Layer " ++ s ++ " not found in layout") }
  | none => { template := t, status := .layer_independent }

/-- `mapLayersToSteps(layout, recipe)` from `process_planner.js`. -/
def mapLayersToSteps (layout : Layout) (recipe : Recipe) : List MappedStep :=
  recipe.steps.map (mapStep (layerIndex layout.layers))

/-- The fixed default-duration table of `calculateDuration` (hours). -/
def defaultDurations : List (String × ℚ) :=
  [("lithography", 2), ("etch", 1), ("deposition", 3), ("implantation", 2),
   ("thermal_oxidation", 3), ("cmp", 3/2), ("metallization", 2),
   ("strip", 1/2), ("wet_etch", 1/2)]

/-- `defaultDurations[step.operation] || 1` in `calculateDuration`. -/
def defaultDuration (operation : String) : ℚ :=
  jsOrNum ((defaultDurations.find? (fun p => p.1 = operation)).map
    (fun p => p.2)) 1

/-- Contribution of one step to the duration sum: `duration_min / 60` when
`duration_min` is truthy (present and non-zero), else the operation default. -/
def stepContribution (t : StepTemplate) : ℚ :=
  match t.duration_min with
  | some d => if d = 0 then defaultDuration t.operation else d / 60
  | none => defaultDuration t.operation

/-- The accumulated `totalHours` of `calculateDuration` before rounding. -/
def durationSum (steps : List MappedStep) : ℚ :=
  steps.foldl (fun acc s => acc + stepContribution s.template) 0

/-- `calculateDuration(steps)` from `process_planner.js`:
`Math.round(totalHours * 10) / 10`. -/
def calculateDuration (steps : List MappedStep) : ℚ :=
  (jsRound (durationSum steps * 10) : ℚ) / 10

/-- The process-flow value returned by `generateFlow`. -/
structure ProcessFlow where
  name : String
  process_type : String
  technology_node : String
  application : String
  layout_file : String
  layers_used : ℕ
  steps : List MappedStep
  total_steps : ℕ
  estimated_duration_hours : ℚ
deriving Repr, DecidableEq

/-- `generateFlow(layout, processType)` from `process_planner.js`.  The
`throw` of `Unknown process type` is modelled by `Except.error` carrying the
exact message. -/
def generateFlow (db : RecipeDB) (layout : Layout)
    (processType : String := "cmos_standard") : Except String ProcessFlow :=
  match lookupRecipe db processType with
  | none => .error ("Unknown process type: " ++ processType)
  | some recipe =>
    let mappedSteps := mapLayersToSteps layout recipe
    let totalDuration := calculateDuration mappedSteps
    .ok
      { name := recipe.name,
        process_type := processType,
        technology_node := jsOrStr recipe.technology_node "N/A",
        application := jsOrStr recipe.application "General",
        layout_file := layout.filename,
        layers_used := layout.layers.length,
        steps := mappedSteps,
        total_steps := mappedSteps.length,
        estimated_duration_hours := totalDuration }

/-- The uppercased layer-name list computed at the top of `analyzeLayout`
(`layout.layers.map(l => l.name.toUpperCase())`). -/
def layerNamesUpper (layout : Layout) : List String :=
  layout.layers.map (fun l => jsToUpper l.name)

/-- The MEMS test of `analyzeLayout`: some uppercased layer name contains
`CANTILEVER` or `MEMBRANE`. -/
def hasMemsIndicator (layout : Layout) : Bool :=
  (layerNamesUpper layout).any
    (fun n => jsIncludes n "CANTILEVER" || jsIncludes n "MEMBRANE")

/-- The electrode test inside the MEMS branch of `analyzeLayout`. -/
def hasElectrode (layout : Layout) : Bool :=
  (layerNamesUpper layout).any (fun n => jsIncludes n "ELECTRODE")

/-- The photonics test of `analyzeLayout`: some uppercased layer name
contains `WAVEGUIDE` or `GRATING`. -/
def hasPhotonicsIndicator (layout : Layout) : Bool :=
  (layerNamesUpper layout).any
    (fun n => jsIncludes n "WAVEGUIDE" || jsIncludes n "GRATING")

/-- The CMOS test of `analyzeLayout`: exact membership of `POLY` and
`ACTIVE` in the uppercased name list (`Array.prototype.includes`). -/
def hasPolyActive (layout : Layout) : Bool :=
  (layerNamesUpper layout).contains "POLY" &&
    (layerNamesUpper layout).contains "ACTIVE"

/-- `estimateMinFeatureSize(layout)` from `process_planner.js`:
`Math.round(Math.sqrt(area / feature_count) * 10) / 10` with
`area = bounding_box.max_x * bounding_box.max_y` (raw max values). -/
noncomputable def estimateMinFeatureSize (layout : Layout) : ℝ :=
  let area : ℝ := (layout.bounding_box.max_x : ℝ) * (layout.bounding_box.max_y : ℝ)
  let avgFeatureArea := area / (layout.feature_count : ℝ)
  (jsRoundR (Real.sqrt avgFeatureArea * 10) : ℝ) / 10

/-- The layout-analysis record returned by `analyzeLayout`. -/
structure LayoutAnalysis where
  suggested_process : String
  reason : String
  complexity : String
  min_feature_size : ℝ
  layer_count : ℕ
  feature_density : ℝ

/-- `analyzeLayout(layout)` from `process_planner.js`.  The mutable
`suggestedProcess` / `reason` / `complexity` variables and the if/else-if
chain are translated into one chained conditional producing their final
values. -/
noncomputable def analyzeLayout (layout : Layout) : LayoutAnalysis :=
  let outcome : String × String × String :=
    if hasMemsIndicator layout then
      if hasElectrode layout then
        ("mems_cantilever", "Detected cantilever structures with electrodes",
          "high")
      else
        ("mems_pressure_sensor", "Detected MEMS membrane structures", "high")
    else if hasPhotonicsIndicator layout then
      ("photonics_waveguide", "Detected photonic waveguide patterns", "high")
    else if hasPolyActive layout then
      ("cmos_standard", "Standard CMOS layers detected (POLY, ACTIVE)",
        if layout.feature_count > 1000 then "high" else "medium")
    else
      ("cmos_standard", "Default CMOS process", "medium")
  { suggested_process := outcome.1,
    reason := outcome.2.1,
    complexity := outcome.2.2,
    min_feature_size := estimateMinFeatureSize layout,
    layer_count := layout.layers.length,
    feature_density := (layout.feature_count : ℝ) /
      ((layout.bounding_box.max_x : ℝ) * (layout.bounding_box.max_y : ℝ)) }

/-- The mock layout returned by `parseGDS` in `gds_parser.js` for an
existing path `fp` (the file-existence check is a boundary concern and is
not modelled). -/
def mockLayout (fp : String) : Layout :=
  { filename := fp,
    layers :=
      [{ number := 1, name := "ACTIVE", datatype := 0, feature_count := 150 },
       { number := 2, name := "POLY", datatype := 0, feature_count := 200 },
       { number := 3, name := "CONTACT", datatype := 0, feature_count := 300 },
       { number := 4, name := "METAL1", datatype := 0, feature_count := 180 },
       { number := 5, name := "VIA1", datatype := 0, feature_count := 120 }],
    feature_count := 950,
    units := { database_unit := 1/1000000000, user_unit := 1/1000000 },
    bounding_box := { min_x := 0, min_y := 0, max_x := 1000, max_y := 1000 } }

/-- JS `'='.repeat(n)` and friends. -/
def strRepeat (s : String) (n : ℕ) : String :=
  String.join (List.replicate n s)

/-- Rendering of a JS number into a template string.  The exact digit
format of JS number printing is abstracted by one fixed injective printer;
no verified property depends on its digits. -/
def numStr (q : ℚ) : String :=
  if q.den = 1 then toString q.num
  else toString q.num ++ "/" ++ toString q.den

/-- A conditional template line for an optional string field: emitted
exactly when the field is JS-truthy (present and non-empty). -/
def condStrLine (pre : String) (o : Option String) (suf : String) : String :=
  match o with
  | some v => if v = "" then "" else pre ++ v ++ suf
  | none => ""

/-- A conditional template line for an optional numeric field: emitted
exactly when the field is JS-truthy (present and non-zero). -/
def condNumLine (pre : String) (o : Option ℚ) (suf : String) : String :=
  match o with
  | some v => if v = 0 then "" else pre ++ numStr v ++ suf
  | none => ""

/-- The header part of `formatText` (everything before the step loop). -/
def textHeader (flow : ProcessFlow) : String :=
  strRepeat "=" 60 ++ "\n" ++
  "FABRICATION PROCESS FLOW\n" ++
  strRepeat "=" 60 ++ "\n\n" ++
  "Process: " ++ flow.name ++ "\n" ++
  "Type: " ++ flow.process_type ++ "\n" ++
  "Technology: " ++ flow.technology_node ++ "\n" ++
  "Application: " ++ flow.application ++ "\n" ++
  "Layout File: " ++ flow.layout_file ++ "\n" ++
  "Total Steps: " ++ toString flow.total_steps ++ "\n" ++
  "Estimated Duration: " ++ numStr flow.estimated_duration_hours ++
    " hours\n\n" ++
  strRepeat "-" 60 ++ "\n" ++
  "PROCESS STEPS\n" ++
  strRepeat "-" 60 ++ "\n\n"

/-- The text rendered for one step by the `forEach` loop of `formatText`;
each conditional field line follows the corresponding JS truthiness test. -/
def textStep (s : MappedStep) : String :=
  "Step " ++ toString s.template.step ++ ": " ++
    jsToUpper s.template.operation ++ "\n" ++
  "  Description: " ++ s.template.description ++ "\n" ++
  condStrLine "  Material: " s.template.material "\n" ++
  condStrLine "  Method: " s.template.method "\n" ++
  condNumLine "  Thickness: " s.template.thickness_nm " nm\n" ++
  condNumLine "  Temperature: " s.template.temperature_c "°C\n" ++
  condStrLine "  Mask Layer: " s.template.layer "\n" ++
  condStrLine "  ⚠ WARNING: " s.warning "\n" ++
  "\n"

/-- `formatText(processFlow)` from `process_planner.js`: sequential `+=`
accumulation, header first, then one chunk per step in flow order. -/
def formatText (flow : ProcessFlow) : String :=
  flow.steps.foldl (fun acc s => acc ++ textStep s) (textHeader flow)

/-- The header part of `formatMarkdown` (everything before the step loop). -/
def mdHeader (flow : ProcessFlow) : String :=
  "# Fabrication Process Flow\n\n" ++
  "## Process Information\n\n" ++
  "- **Process**: " ++ flow.name ++ "\n" ++
  "- **Type**: " ++ flow.process_type ++ "\n" ++
  "- **Technology**: " ++ flow.technology_node ++ "\n" ++
  "- **Application**: " ++ flow.application ++ "\n" ++
  "- **Layout File**: " ++ flow.layout_file ++ "\n" ++
  "- **Total Steps**: " ++ toString flow.total_steps ++ "\n" ++
  "- **Estimated Duration**: " ++ numStr flow.estimated_duration_hours ++
    " hours\n\n" ++
  "## Process Steps\n\n"

/-- The markdown rendered for one step by the `forEach` loop of
`formatMarkdown`.  Note: in the source, the `Mask Layer` line sits inside
the parameters block, which is emitted only when one of material, method,
thickness_nm, temperature_c is truthy. -/
def mdStep (s : MappedStep) : String :=
  "### Step " ++ toString s.template.step ++ ": " ++
    s.template.operation ++ "\n\n" ++
  s.template.description ++ "\n\n" ++
  (if strTruthy s.template.material || strTruthy s.template.method ||
      numTruthy s.template.thickness_nm || numTruthy s.template.temperature_c
   then
     "**Parameters:**\n" ++
     condStrLine "- Material: " s.template.material "\n" ++
     condStrLine "- Method: " s.template.method "\n" ++
     condNumLine "- Thickness: " s.template.thickness_nm " nm\n" ++
     condNumLine "- Temperature: " s.template.temperature_c "°C\n" ++
     condStrLine "- Mask Layer: " s.template.layer "\n" ++
     "\n"
   else "") ++
  condStrLine "> ⚠️ **Warning**: " s.warning "\n\n"

/-- `formatMarkdown(processFlow)` from `process_planner.js`. -/
def formatMarkdown (flow : ProcessFlow) : String :=
  flow.steps.foldl (fun acc s => acc ++ mdStep s) (mdHeader flow)

/-! ### Helper lemmas -/

/-- The spread copy `{ ...step }` of `mapLayersToSteps` leaves every
template attribute unchanged. -/
theorem mapStep_template (idx : String → Option Layer) (t : StepTemplate) :
    (mapStep idx t).template = t := by
  unfold mapStep
  cases t.layer with
  | none => rfl
  | some s =>
    dsimp only
    split
    · rfl
    · cases idx s <;> rfl

/-- Left fold of accumulator-plus-contribution equals accumulator plus the
sum of mapped contributions. -/
theorem foldl_add_contribution {α : Type} (f : α → ℚ) (l : List α) (a : ℚ) :
    l.foldl (fun acc x => acc + f x) a = a + (l.map f).sum := by
  induction l generalizing a with
  | nil => simp
  | cons x xs ih => simp [ih]; ring

/-- `durationSum` over an appended singleton. -/
theorem durationSum_append (steps : List MappedStep) (x : MappedStep) :
    durationSum (steps ++ [x]) = durationSum steps + stepContribution x.template := by
  simp [durationSum, foldl_add_contribution]

/-- A sample recipe used to instantiate hypotheses at concrete inputs. -/
def sampleRecipe : Recipe :=
  { name := "Standard CMOS Process",
    technology_node := some "180nm",
    application := some "Logic",
    steps :=
      [{ step := 1, operation := "thermal_oxidation",
         description := "Grow field oxide", thickness_nm := some 500 },
       { step := 2, operation := "lithography",
         description := "Pattern active area", layer := some "ACTIVE" },
       { step := 3, operation := "etch",
         description := "Etch isolation trench", duration_min := some 45 },
       { step := 4, operation := "lithography",
         description := "Pattern via layer two", layer := some "VIA2" }] }

/-- A one-entry recipe table holding `sampleRecipe`. -/
def sampleDB : RecipeDB := [("cmos_standard", sampleRecipe)]

/-! ### C1: failure behaviour of generateFlow -/

/-- C1: `generateFlow` fails exactly when the process type is not a key of
the recipe table: the error is the unwrapped `Unknown process type` message,
and whenever the key is present the call returns a flow for every layout —
in particular a layout missing some step's named layer never raises. -/
theorem generateFlow_unknown_process_iff (db : RecipeDB) (L : Layout)
    (P : String) :
    ((∃ e, generateFlow db L P = Except.error e) ↔ lookupRecipe db P = none)
    ∧ (lookupRecipe db P = none →
        generateFlow db L P = Except.error ("Unknown process type: " ++ P))
    ∧ (∀ r, lookupRecipe db P = some r →
        ∃ f, generateFlow db L P = Except.ok f) := by
  unfold generateFlow
  cases h : lookupRecipe db P with
  | none => simp
  | some r => simp

/-- Witness for C1 at a concrete empty table and the mock layout. -/
theorem generateFlow_unknown_process_iff_witness :
    generateFlow [] (mockLayout "chip.gds") "foo" =
      Except.error ("Unknown process type: " ++ "foo") :=
  (generateFlow_unknown_process_iff [] (mockLayout "chip.gds") "foo").2.1 rfl

/-! ### C4: step order and attribute preservation -/

/-- C4: for a process type present in the table, the flow's `total_steps`
is the recipe's step count and the mapped steps are, in order and without
filtering, the recipe's templates with all attributes copied unchanged into
the template component. -/
theorem generateFlow_preserves_steps (db : RecipeDB) (L : Layout) (P : String)
    (r : Recipe) (h : lookupRecipe db P = some r) :
    ∃ f, generateFlow db L P = Except.ok f
      ∧ f.total_steps = r.steps.length
      ∧ f.steps.map MappedStep.template = r.steps := by
  unfold generateFlow
  rw [h]
  refine ⟨_, rfl, ?_, ?_⟩
  · simp [mapLayersToSteps]
  · simp only [mapLayersToSteps, List.map_map]
    have : (MappedStep.template ∘ mapStep (layerIndex L.layers)) = id := by
      funext t
      exact mapStep_template _ t
    simp [this]

/-- Witness for C4 at the sample table and the mock layout. -/
theorem generateFlow_preserves_steps_witness :
    ∃ f, generateFlow sampleDB (mockLayout "chip.gds") "cmos_standard" =
        Except.ok f
      ∧ f.total_steps = sampleRecipe.steps.length
      ∧ f.steps.map MappedStep.template = sampleRecipe.steps :=
  generateFlow_preserves_steps sampleDB (mockLayout "chip.gds")
    "cmos_standard" sampleRecipe (by decide)

/-! ### C10: present-but-zero duration_min -/

/-- C10: a `duration_min` that is present but `0` is JS-falsy, so
`calculateDuration` contributes the operation default (with its 1-hour
fallback) for such a step — exactly as if `duration_min` were absent. -/
theorem zero_duration_min_uses_default (t : StepTemplate)
    (h : t.duration_min = some 0) :
    stepContribution t = defaultDuration t.operation
    ∧ stepContribution t = stepContribution { t with duration_min := none } := by
  constructor <;> simp [stepContribution, h]

/-- Witness for C10 at a concrete etch step with `duration_min = 0`. -/
theorem zero_duration_min_uses_default_witness :
    stepContribution
        { step := 1, operation := "etch", description := "Etch trench",
          duration_min := some 0 } =
      defaultDuration "etch" :=
  (zero_duration_min_uses_default
    { step := 1, operation := "etch", description := "Etch trench",
      duration_min := some 0 } rfl).1

/-! ### C2: the status trichotomy of mapped steps -/

/-- C2: each mapped step carries exactly one status, characterised as the
claim states it — `matched` iff the template names a layer (a non-empty
layer name, matching the JS truthiness test in the source) present in the
layout's last-write-wins layer index, `layer_missing` iff a named layer is
absent (then the warning string is attached and no layer fields are set),
and `layer_independent` iff no layer is named.  The matched case attaches
the indexed layer's number and feature count. -/
theorem mapStep_status_cases (L : Layout) (t : StepTemplate) (m : MappedStep)
    (hm : m = mapStep (layerIndex L.layers) t) :
    (m.status = StepStatus.matched ↔
      ∃ s, t.layer = some s ∧ s ≠ "" ∧ (layerIndex L.layers s).isSome = true)
    ∧ (m.status = StepStatus.layer_missing ↔
      ∃ s, t.layer = some s ∧ s ≠ "" ∧ layerIndex L.layers s = none)
    ∧ (m.status = StepStatus.layer_independent ↔
      (t.layer = none ∨ t.layer = some ""))
    ∧ (∀ s l, t.layer = some s → s ≠ "" → layerIndex L.layers s = some l →
        m.layout_layer = some l.number ∧ m.feature_count = some l.feature_count
        ∧ m.warning = none)
    ∧ (∀ s, t.layer = some s → s ≠ "" → layerIndex L.layers s = none →
        m.warning = some ("Layer " ++ s ++ " not found in layout")
        ∧ m.layout_layer = none ∧ m.feature_count = none) := by
  subst hm
  cases ht : t.layer with
  | none => simp [mapStep, ht]
  | some s =>
    by_cases hs : s = ""
    · subst hs
      simp [mapStep, ht]
      intro s l h1 h2
      exact absurd h1.symm h2
    · cases hl : layerIndex L.layers s with
      | none =>
        simp [mapStep, ht, hs, hl]
        intro s1 l h1 h2 h3
        subst h1
        rw [hl] at h3
        exact Option.noConfusion h3
      | some l =>
        simp [mapStep, ht, hs, hl]
        intro s1 l1 h1 h2 h3
        subst h1
        rw [hl] at h3
        injection h3 with h4
        subst h4
        exact ⟨rfl, rfl⟩

/-- Witness for C2: a concrete step naming `POLY` against the mock layout
is matched with the layer's number and feature count attached. -/
theorem mapStep_status_cases_witness :
    (mapStep (layerIndex (mockLayout "chip.gds").layers)
        { step := 2, operation := "lithography",
          description := "Pattern gate", layer := some "POLY" }).status =
      StepStatus.matched :=
  ((mapStep_status_cases (mockLayout "chip.gds")
      { step := 2, operation := "lithography",
        description := "Pattern gate", layer := some "POLY" } _ rfl).1).mpr
    ⟨"POLY", rfl, by decide, by decide⟩

/-! ### C3: the aggregate-duration formula -/

/-- Modelled from the claim's words (C3): a step contributes
`duration_min / 60` whenever `duration_min` is present, otherwise the
operation default. -/
def stepContributionClaimed (t : StepTemplate) : ℚ :=
  match t.duration_min with
  | some d => d / 60
  | none => defaultDuration t.operation

/-- Modelled from the claim's words (C3): sum the claimed per-step
contributions, then round to one decimal, halves up. -/
def calculateDurationClaimed (steps : List MappedStep) : ℚ :=
  (jsRound ((steps.map (fun s => stepContributionClaimed s.template)).sum * 10) : ℚ) / 10

/-- Amended form of C3: identical, except that a present-but-zero
`duration_min` falls back to the operation default (JS truthiness of
`step.duration_min`). -/
def calculateDurationAmended (steps : List MappedStep) : ℚ :=
  (jsRound ((steps.map (fun s => stepContribution s.template)).sum * 10) : ℚ) / 10

/-- A mapped etch step whose `duration_min` is present but zero. -/
def zeroEtchStep : MappedStep :=
  { template :=
      { step := 1, operation := "etch", description := "Etch trench",
        duration_min := some 0 },
    status := StepStatus.layer_independent }

/-- Counterexample to C3 as stated: on a single etch step with
`duration_min = 0` the code yields 1 hour (the etch default), while the
claimed formula, which uses `duration_min / 60` whenever the field is
present, yields 0 hours. -/
theorem calculateDuration_zero_duration_cex :
    calculateDuration [zeroEtchStep] = 1
    ∧ calculateDurationClaimed [zeroEtchStep] = 0 := by
  constructor
  · unfold calculateDuration
    have h : durationSum [zeroEtchStep] = 1 := by
      have hc : stepContribution zeroEtchStep.template = 1 := by rfl
      simp [durationSum, hc]
    rw [h]
    norm_num [jsRound]
  · unfold calculateDurationClaimed
    have h : (List.map (fun s => stepContributionClaimed s.template)
        [zeroEtchStep]).sum = 0 := by
      have hc : stepContributionClaimed zeroEtchStep.template = 0 / 60 := by rfl
      simp [hc]
    rw [h]
    norm_num [jsRound]

/-- C3 (amended): the aggregate duration equals the claimed sum-then-round
formula with the default table and 1-hour fallback, where a `duration_min`
contributes `duration_min / 60` when present *and non-zero*. -/
theorem calculateDuration_eq_amended_spec (steps : List MappedStep) :
    calculateDuration steps = calculateDurationAmended steps := by
  unfold calculateDuration calculateDurationAmended durationSum
  rw [foldl_add_contribution]
  simp

/-! ### C8: monotonicity of duration aggregation -/

/-- C8: appending a step with positive contribution strictly increases the
pre-rounding duration sum, and the rounded `estimated_duration_hours` never
decreases. -/
theorem duration_aggregation_monotone (steps : List MappedStep)
    (x : MappedStep) (h : 0 < stepContribution x.template) :
    durationSum steps < durationSum (steps ++ [x])
    ∧ calculateDuration steps ≤ calculateDuration (steps ++ [x]) := by
  have hsum := durationSum_append steps x
  constructor
  · linarith
  · unfold calculateDuration jsRound
    have hmono : (⌊durationSum steps * 10 + 1/2⌋ : ℤ) ≤
        ⌊durationSum (steps ++ [x]) * 10 + 1/2⌋ := by
      apply Int.floor_mono
      nlinarith
    have : ((⌊durationSum steps * 10 + 1/2⌋ : ℤ) : ℚ) ≤
        ((⌊durationSum (steps ++ [x]) * 10 + 1/2⌋ : ℤ) : ℚ) :=
      Int.cast_le.mpr hmono
    linarith

/-- A mapped etch step with no explicit duration (default 1 hour). -/
def plainEtchStep : MappedStep :=
  { template := { step := 1, operation := "etch", description := "Etch" },
    status := StepStatus.layer_independent }

/-- Witness for C8: appending a default-duration etch step to the empty
step list strictly increases the sum and weakly increases the rounded
total. -/
theorem duration_aggregation_monotone_witness :
    0 < stepContribution plainEtchStep.template
    ∧ (durationSum [] < durationSum ([] ++ [plainEtchStep])
      ∧ calculateDuration [] ≤ calculateDuration ([] ++ [plainEtchStep])) :=
  have hpos : 0 < stepContribution plainEtchStep.template := by
    rw [show stepContribution plainEtchStep.template = 1 from rfl]
    norm_num
  ⟨hpos, duration_aggregation_monotone [] plainEtchStep hpos⟩

/-! ### C5: analyzeLayout rule order -/

/-- C5: `analyzeLayout` evaluates the uppercased layer names against the
ordered rule list, first match wins: MEMS indicators (with the electrode
refinement) before photonics indicators before exact POLY/ACTIVE membership
before the default; the POLY/ACTIVE branch grades complexity by
`feature_count > 1000`; complexity is always `high` or `medium`, never
`low`. -/
theorem analyzeLayout_rule_order (L : Layout) :
    (hasMemsIndicator L = true →
      (analyzeLayout L).suggested_process =
          (if hasElectrode L then "mems_cantilever" else "mems_pressure_sensor")
        ∧ (analyzeLayout L).complexity = "high")
    ∧ (hasMemsIndicator L = false → hasPhotonicsIndicator L = true →
        (analyzeLayout L).suggested_process = "photonics_waveguide"
        ∧ (analyzeLayout L).complexity = "high")
    ∧ (hasMemsIndicator L = false → hasPhotonicsIndicator L = false →
        hasPolyActive L = true →
        (analyzeLayout L).suggested_process = "cmos_standard"
        ∧ (analyzeLayout L).complexity =
            (if L.feature_count > 1000 then "high" else "medium"))
    ∧ (hasMemsIndicator L = false → hasPhotonicsIndicator L = false →
        hasPolyActive L = false →
        (analyzeLayout L).suggested_process = "cmos_standard"
        ∧ (analyzeLayout L).complexity = "medium")
    ∧ ((analyzeLayout L).complexity = "high"
        ∨ (analyzeLayout L).complexity = "medium") := by
  refine ⟨?_, ?_, ?_, ?_, ?_⟩
  · intro h1
    cases h2 : hasElectrode L <;> simp [analyzeLayout, h1, h2]
  · intro h1 h2
    simp [analyzeLayout, h1, h2]
  · intro h1 h2 h3
    simp [analyzeLayout, h1, h2, h3]
  · intro h1 h2 h3
    simp [analyzeLayout, h1, h2, h3]
  · simp only [analyzeLayout]
    split_ifs <;> simp

/-- Witness for C5: the mock layout hits the POLY/ACTIVE branch with 950
features. -/
theorem analyzeLayout_rule_order_witness :
    hasMemsIndicator (mockLayout "chip.gds") = false
    ∧ hasPhotonicsIndicator (mockLayout "chip.gds") = false
    ∧ hasPolyActive (mockLayout "chip.gds") = true
    ∧ ((analyzeLayout (mockLayout "chip.gds")).suggested_process =
          "cmos_standard"
        ∧ (analyzeLayout (mockLayout "chip.gds")).complexity =
            (if (mockLayout "chip.gds").feature_count > 1000
             then "high" else "medium")) :=
  ⟨by decide, by decide, by decide,
    (analyzeLayout_rule_order (mockLayout "chip.gds")).2.2.1
      (by decide) (by decide) (by decide)⟩

/-! ### C6: the min-feature-size and density formulas -/

/-- C6: `min_feature_size` is `round(sqrt((max_x*max_y)/feature_count)*10)/10`
and `feature_density` is `feature_count/(max_x*max_y)`, both on the raw
bounding-box maxima with no `min_x`/`min_y` subtraction; on the mock layout
(950 features, box (0,0)-(1000,1000)) the value is exactly `32.4`. -/
theorem analyzeLayout_min_feature_size_spec (L : Layout) :
    ((analyzeLayout L).min_feature_size =
      (jsRoundR (Real.sqrt (((L.bounding_box.max_x : ℝ) *
          (L.bounding_box.max_y : ℝ)) / (L.feature_count : ℝ)) * 10) : ℝ) / 10)
    ∧ ((analyzeLayout L).feature_density =
      (L.feature_count : ℝ) /
        ((L.bounding_box.max_x : ℝ) * (L.bounding_box.max_y : ℝ)))
    ∧ (analyzeLayout (mockLayout "chip.gds")).min_feature_size = 32.4 := by
  refine ⟨rfl, rfl, ?_⟩
  show (jsRoundR (Real.sqrt ((((mockLayout "chip.gds").bounding_box.max_x : ℝ) *
      ((mockLayout "chip.gds").bounding_box.max_y : ℝ)) /
      (((mockLayout "chip.gds").feature_count : ℕ) : ℝ)) * 10) : ℝ) / 10 = 32.4
  have harg : (((mockLayout "chip.gds").bounding_box.max_x : ℝ) *
      ((mockLayout "chip.gds").bounding_box.max_y : ℝ)) /
      (((mockLayout "chip.gds").feature_count : ℕ) : ℝ) = 20000 / 19 := by
    simp only [mockLayout]
    push_cast
    norm_num
  rw [harg]
  have h0 : (0:ℝ) ≤ 20000 / 19 := by norm_num
  have h1 : (32.35:ℝ) ≤ Real.sqrt (20000 / 19) := by
    have hs : (32.35:ℝ) = Real.sqrt (32.35 ^ 2) :=
      (Real.sqrt_sq (by norm_num)).symm
    rw [hs]
    apply Real.sqrt_le_sqrt
    norm_num
  have h2 : Real.sqrt (20000 / 19) < 32.45 := by
    have hs : (32.45:ℝ) = Real.sqrt (32.45 ^ 2) :=
      (Real.sqrt_sq (by norm_num)).symm
    rw [hs]
    exact Real.sqrt_lt_sqrt h0 (by norm_num)
  have hfloor : jsRoundR (Real.sqrt (20000 / 19) * 10) = 324 := by
    unfold jsRoundR
    rw [Int.floor_eq_iff]
    constructor
    · push_cast
      nlinarith
    · push_cast
      nlinarith
  rw [hfloor]
  norm_num

/-! ### C9: the renderers -/

/-- A conditional string line is the line exactly when the field is
JS-truthy. -/
theorem condStrLine_eq (pre : String) (o : Option String) (suf : String) :
    condStrLine pre o suf =
      if strTruthy o = true then pre ++ o.getD "" ++ suf else "" := by
  cases o with
  | none => simp [condStrLine, strTruthy]
  | some v =>
    by_cases hv : v = "" <;> simp [condStrLine, strTruthy, hv]

/-- A conditional numeric line is the line exactly when the field is
JS-truthy. -/
theorem condNumLine_eq (pre : String) (o : Option ℚ) (suf : String) :
    condNumLine pre o suf =
      if numTruthy o = true then pre ++ numStr (o.getD 0) ++ suf else "" := by
  cases o with
  | none => simp [condNumLine, numTruthy]
  | some v =>
    by_cases hv : v = 0 <;> simp [condNumLine, numTruthy, hv]

/-- `String.join` unfolds over `cons`. -/
theorem join_cons (s : String) (l : List String) :
    String.join (s :: l) = s ++ String.join l := by
  apply String.ext
  rw [String.join_eq, String.join_eq]
  simp [String.data_append]

/-- Sequential `+=` accumulation over a list renders the initial string
followed by each element's rendering in list order. -/
theorem foldl_append_eq_join {α : Type} (g : α → String) (l : List α)
    (init : String) :
    l.foldl (fun acc x => acc ++ g x) init = init ++ String.join (l.map g) := by
  induction l generalizing init with
  | nil => simp [String.join]
  | cons x xs ih =>
    simp only [List.foldl_cons, List.map_cons]
    rw [ih, join_cons]
    apply String.ext
    simp [String.data_append]

/-- Modelled from the claim's words (C9): one text-report step — the six
conditionally-present fields appear exactly when JS-truthy (non-empty /
non-zero and defined), and the operation name is uppercased. -/
def textStepClaimed (s : MappedStep) : String :=
  "Step " ++ toString s.template.step ++ ": " ++
    jsToUpper s.template.operation ++ "\n" ++
  "  Description: " ++ s.template.description ++ "\n" ++
  (if strTruthy s.template.material = true
   then "  Material: " ++ s.template.material.getD "" ++ "\n" else "") ++
  (if strTruthy s.template.method = true
   then "  Method: " ++ s.template.method.getD "" ++ "\n" else "") ++
  (if numTruthy s.template.thickness_nm = true
   then "  Thickness: " ++ numStr (s.template.thickness_nm.getD 0) ++ " nm\n"
   else "") ++
  (if numTruthy s.template.temperature_c = true
   then "  Temperature: " ++ numStr (s.template.temperature_c.getD 0) ++ "°C\n"
   else "") ++
  (if strTruthy s.template.layer = true
   then "  Mask Layer: " ++ s.template.layer.getD "" ++ "\n" else "") ++
  (if strTruthy s.warning = true
   then "  ⚠ WARNING: " ++ s.warning.getD "" ++ "\n" else "") ++
  "\n"

/-- Modelled from the claim's words (C9): the text report renders the
header fields and then every step in flow order. -/
def formatTextClaimed (flow : ProcessFlow) : String :=
  textHeader flow ++ String.join (flow.steps.map textStepClaimed)

/-- Modelled from the claim's words (C9), as stated: one markdown step with
every conditionally-present field — the layer included — appearing exactly
when JS-truthy; the parameters header and its closing blank line appear
when one of material, method, thickness_nm, temperature_c is truthy; the
operation name is not uppercased. -/
def mdStepClaimed (s : MappedStep) : String :=
  "### Step " ++ toString s.template.step ++ ": " ++
    s.template.operation ++ "\n\n" ++
  s.template.description ++ "\n\n" ++
  (if (strTruthy s.template.material || strTruthy s.template.method ||
      numTruthy s.template.thickness_nm || numTruthy s.template.temperature_c)
      = true
   then "**Parameters:**\n" else "") ++
  (if strTruthy s.template.material = true
   then "- Material: " ++ s.template.material.getD "" ++ "\n" else "") ++
  (if strTruthy s.template.method = true
   then "- Method: " ++ s.template.method.getD "" ++ "\n" else "") ++
  (if numTruthy s.template.thickness_nm = true
   then "- Thickness: " ++ numStr (s.template.thickness_nm.getD 0) ++ " nm\n"
   else "") ++
  (if numTruthy s.template.temperature_c = true
   then "- Temperature: " ++ numStr (s.template.temperature_c.getD 0) ++ "°C\n"
   else "") ++
  (if strTruthy s.template.layer = true
   then "- Mask Layer: " ++ s.template.layer.getD "" ++ "\n" else "") ++
  (if (strTruthy s.template.material || strTruthy s.template.method ||
      numTruthy s.template.thickness_nm || numTruthy s.template.temperature_c)
      = true
   then "\n" else "") ++
  (if strTruthy s.warning = true
   then "> ⚠️ **Warning**: " ++ s.warning.getD "" ++ "\n\n" else "")

/-- The markdown renderer as the claim describes it (C9 as stated). -/
def formatMarkdownClaimed (flow : ProcessFlow) : String :=
  mdHeader flow ++ String.join (flow.steps.map mdStepClaimed)

/-- Amended markdown step (C9 amended): identical to `mdStepClaimed`,
except that the layer line appears exactly when the layer is truthy *and*
the parameters block is present (one of material, method, thickness_nm,
temperature_c truthy), matching the nesting in the source. -/
def mdStepAmended (s : MappedStep) : String :=
  "### Step " ++ toString s.template.step ++ ": " ++
    s.template.operation ++ "\n\n" ++
  s.template.description ++ "\n\n" ++
  (if (strTruthy s.template.material || strTruthy s.template.method ||
      numTruthy s.template.thickness_nm || numTruthy s.template.temperature_c)
      = true
   then "**Parameters:**\n" else "") ++
  (if strTruthy s.template.material = true
   then "- Material: " ++ s.template.material.getD "" ++ "\n" else "") ++
  (if strTruthy s.template.method = true
   then "- Method: " ++ s.template.method.getD "" ++ "\n" else "") ++
  (if numTruthy s.template.thickness_nm = true
   then "- Thickness: " ++ numStr (s.template.thickness_nm.getD 0) ++ " nm\n"
   else "") ++
  (if numTruthy s.template.temperature_c = true
   then "- Temperature: " ++ numStr (s.template.temperature_c.getD 0) ++ "°C\n"
   else "") ++
  (if ((strTruthy s.template.material || strTruthy s.template.method ||
      numTruthy s.template.thickness_nm || numTruthy s.template.temperature_c)
      && strTruthy s.template.layer) = true
   then "- Mask Layer: " ++ s.template.layer.getD "" ++ "\n" else "") ++
  (if (strTruthy s.template.material || strTruthy s.template.method ||
      numTruthy s.template.thickness_nm || numTruthy s.template.temperature_c)
      = true
   then "\n" else "") ++
  (if strTruthy s.warning = true
   then "> ⚠️ **Warning**: " ++ s.warning.getD "" ++ "\n\n" else "")

/-- The markdown renderer per the amended claim. -/
def formatMarkdownAmended (flow : ProcessFlow) : String :=
  mdHeader flow ++ String.join (flow.steps.map mdStepAmended)

/-- Each text step renders per the claim. -/
theorem textStep_eq_claimed (s : MappedStep) :
    textStep s = textStepClaimed s := by
  unfold textStep textStepClaimed
  simp only [condStrLine_eq, condNumLine_eq]

/-- Each markdown step renders per the amended claim. -/
theorem mdStep_eq_amended (s : MappedStep) :
    mdStep s = mdStepAmended s := by
  unfold mdStep mdStepAmended
  simp only [condStrLine_eq, condNumLine_eq]
  by_cases h1 : strTruthy s.template.material = true <;>
    by_cases h2 : strTruthy s.template.method = true <;>
      by_cases h3 : numTruthy s.template.thickness_nm = true <;>
        by_cases h4 : numTruthy s.template.temperature_c = true <;>
          simp [h1, h2, h3, h4, String.append_assoc] <;>
            rfl

/-- A flow whose only step names a layer but has no other optional
parameter: the markdown renderer omits its `Mask Layer` line. -/
def layerOnlyFlow : ProcessFlow :=
  { name := "P",
    process_type := "cmos_standard",
    technology_node := "N/A",
    application := "General",
    layout_file := "chip.gds",
    layers_used := 1,
    steps :=
      [{ template :=
           { step := 1, operation := "etch", description := "Etch metal",
             layer := some "METAL1" },
         status := StepStatus.matched,
         layout_layer := some 4,
         feature_count := some 180 }],
    total_steps := 1,
    estimated_duration_hours := 1 }

set_option maxRecDepth 4000 in
/-- Counterexample to C9 as stated: on `layerOnlyFlow` the step's layer is
defined and non-empty and the text renderer shows it, but the markdown
renderer emits no `Mask Layer` line (the line is gated behind the
material/method/thickness/temperature test in the source). -/
theorem formatMarkdown_mask_layer_cex :
    (layerOnlyFlow.steps.map (fun s => strTruthy s.template.layer)) = [true]
    ∧ jsIncludes (formatText layerOnlyFlow) "Mask Layer: METAL1" = true
    ∧ jsIncludes (formatMarkdown layerOnlyFlow) "Mask Layer: METAL1" = false
    ∧ formatMarkdown layerOnlyFlow ≠ formatMarkdownClaimed layerOnlyFlow := by
  refine ⟨rfl, ?_, ?_, ?_⟩ <;> decide

/-- C9 (amended): both renderers emit the header fields and every step in
flow order with the conditionally-present fields appearing exactly when
JS-truthy and the operation uppercased in the text renderer only — except
that in the markdown renderer the layer line additionally requires the
parameters block to be present. -/
theorem format_renderers_spec (flow : ProcessFlow) :
    formatText flow = formatTextClaimed flow
    ∧ formatMarkdown flow = formatMarkdownAmended flow := by
  constructor
  · have ht : textStep = textStepClaimed := funext textStep_eq_claimed
    unfold formatText formatTextClaimed
    rw [foldl_append_eq_join]
    rw [ht]
  · have hm : mdStep = mdStepAmended := funext mdStep_eq_amended
    unfold formatMarkdown formatMarkdownAmended
    rw [foldl_append_eq_join]
    rw [hm]

end FabGen
